import Mathlib

/-!
Shallow embedding of the bluelink client (src/bluelink/{utils.py, bluelink.py,
cli.py}) and verification of its specification claims.

HTTP traffic is modelled by passing the would-be responses explicitly; every
stateful operation returns, besides its result, the updated session state and
the number of network calls it performed.
-/

set_option autoImplicit false

namespace BlueLinkModel

/-- JSON values, as returned by requests Response.json(). Numbers are modelled
as rationals since the client never computes with them, only passes them
through. -/
inductive Json where
  | str : String → Json
  | num : Rat → Json
  | bool : Bool → Json
  | null : Json
  | arr : List Json → Json
  | obj : List (String × Json) → Json

/-- The Python exceptions this code base can raise. -/
inductive PyError where
  | requestFailed (msg : String)
  | keyError (key : String)
  | typeError (msg : String)
  | attributeError (msg : String)
  | valueError (msg : String)
  | indexError (msg : String)
  | jsonDecodeError
deriving DecidableEq, Repr

/-- Python equality between an arbitrary value and a string: true exactly when
the value is that string (any non-string compares unequal, never errors). -/
def Json.pyEqStr : Json → String → Bool
  | .str t, s => t == s
  | _, _ => false

/-- Lookup in a Python dict represented as an insertion-ordered association
list: the LAST binding of a key wins, matching repeated assignment and
dict-merge semantics. -/
def lookupLast (k : String) : List (String × Json) → Option Json
  | [] => none
  | (k', v) :: rest =>
    match lookupLast k rest with
    | some r => some r
    | none => if k' = k then some v else none

/-- Python str() of a JSON value as interpolated into an f-string. Faithful for
strings, booleans and null; the rendering of numbers and containers is an
approximation that no theorem below depends on (every error-message theorem
instantiates the interpolated value at a string). -/
def pyStr : Json → String
  | .str s => s
  | .bool b => if b then "True" else "False"
  | .null => "None"
  | .num q => toString q
  | .arr _ => "<list>"
  | .obj _ => "<dict>"

/-- An HTTP response as seen through the requests library: status code, raw
text, and the parsed JSON body (none when Response.json() raises
JSONDecodeError). -/
structure Resp where
  status_code : Nat
  text : String
  jsonBody : Option Json

/-- The specially-worded message raised when the remote service reports
"Bad Gateway" (utils.py line 40). -/
def pendingMsg : String :=
  "Unable to send your request because a previous request is pending. Please wait and try again later."

/-- The check `"E_IFRESULT" in json and json["E_IFRESULT"] == "Z:Success"`
(the negation of the condition on utils.py line 35). -/
def envelopeOk (kvs : List (String × Json)) : Bool :=
  match lookupLast "E_IFRESULT" kvs with
  | some v => v.pyEqStr "Z:Success"
  | none => false

/-- utils.validate: checks status code, JSON decodability and the
E_IFRESULT envelope field. The fallthrough for a non-dict top-level JSON value
models the TypeError Python raises when membership-testing or subscripting such
a value with a string key. -/
def validate (resp : Resp) (action : String) : Except PyError Json :=
  let status := resp.status_code
  if status ≠ 200 then
    .error (.requestFailed s!"Action {action} responded with status code {status}.")
  else
    match resp.jsonBody with
    | none =>
        .error (.requestFailed s!"Invalid JSON response from API for {action}: {resp.text}")
    | some json =>
      match json with
      | .obj kvs =>
        if !(envelopeOk kvs) then
          match lookupLast "E_IFFAILMSG" kvs with
          | none => .error (.keyError "E_IFFAILMSG")
          | some err =>
            if err.pyEqStr "Bad Gateway" then
              .error (.requestFailed pendingMsg)
            else
              .error (.requestFailed s!"BlueLink {action} request failed due to: {pyStr err}")
        else
          .ok json
      | _ => .error (.typeError "argument of type is not a dict")

/-- Python dict subscription json[k]: the value, KeyError when the key is
absent, TypeError on a non-dict. -/
def Json.getItem (j : Json) (k : String) : Except PyError Json :=
  match j with
  | .obj kvs =>
    match lookupLast k kvs with
    | some v => .ok v
    | none => .error (.keyError k)
  | _ => .error (.typeError s!"value is not subscriptable with key {k}")

/-- Python truthiness of a JSON value (bool(x)). -/
def Json.truthy : Json → Bool
  | .str s => s != ""
  | .num q => q != 0
  | .bool b => b
  | .null => false
  | .arr xs => !xs.isEmpty
  | .obj kvs => !kvs.isEmpty

/-- Python list subscription xs[0] as used on MaintenanceInfo. -/
def Json.index0 : Json → Except PyError Json
  | .arr (x :: _) => .ok x
  | .arr [] => .error (.indexError "list index out of range")
  | .obj kvs =>
    match kvs with
    | _ => .error (.keyError "0")
  | _ => .error (.typeError "value is not subscriptable with index 0")

/-- Python int() conversion as used on CurrentMileage: parses decimal strings,
truncates numbers toward zero, converts booleans; TypeError otherwise. -/
def pyInt : Json → Except PyError Int
  | .str s =>
    match s.toInt? with
    | some n => .ok n
    | none => .error (.valueError "invalid literal for int() with base 10")
  | .num q => .ok (if q < 0 then q.ceil else q.floor)
  | .bool b => .ok (if b then 1 else 0)
  | .null => .error (.typeError "int() argument must not be None")
  | .arr _ => .error (.typeError "int() argument must not be a list")
  | .obj _ => .error (.typeError "int() argument must not be a dict")

/-- bluelink.py line 10. -/
def HOME : String := "https://owners.hyundaiusa.com"

/-- The Auth Context stored by BlueLink.login (bluelink.py line 305):
username and pin come from the session credentials, token is the jwt_id value
extracted from the login response. -/
structure Auth where
  username : String
  pin : String
  token : Json

/-- The key/value pairs the dict-splat of the auth context contributes to a
request body. An empty auth dict contributes nothing. -/
def authEntries : Option Auth → List (String × Json)
  | none => []
  | some a => [("username", .str a.username), ("pin", .str a.pin), ("token", a.token)]

/-- A Vehicle Handle (class Car, bluelink.py lines 13-54). The raw
account-info payload values are stored unchanged, hence the Json field types.
The HTTP session is modelled by passing responses explicitly. -/
structure Car where
  nickname : Json
  model : Json
  year : Json
  vin : Json
  uid : Json
  bluelink : Bool
  _auth : Option Auth
  _info : Json

/-- Endpoint selection of Car._request (bluelink.py lines 182-185). -/
def endpointOf (action : String) : String :=
  if action = "getRecMaintenanceTimeline" then "VehicleHealthServlet" else "remoteAction"

/-- URL Car._request posts to. -/
def Car.requestUrl (action : String) : String :=
  s!"{HOME}/bin/common/{endpointOf action}"

/-- The POST body Car._request sends (bluelink.py lines 202-210): the auth
context dict-splat, then the fixed keys, then the action-specific headers dict.
Later entries override earlier ones under lookupLast, matching dict-merge. -/
def Car.requestData (car : Car) (action : String) (headers : List (String × Json)) :
    List (String × Json) :=
  authEntries car._auth ++
    [("vin", car.vin), ("url", .str HOME), ("gen", .num 2),
     ("regId", car.uid), ("service", .str action)] ++
    headers

/-- Car._request: posts Car.requestData to Car.requestUrl and validates the
response (bluelink.py lines 169-216). The network is modelled by taking the
response as an argument; the result is exactly validate on it. -/
def Car._request (car : Car) (action : String) (headers : List (String × Json))
    (resp : Resp) : Except PyError Json :=
  let _data := car.requestData action headers
  validate resp action

/-- Car.lock (bluelink.py lines 56-67). -/
def Car.lock (car : Car) (resp : Resp) : Except PyError Bool := do
  let _ ← car._request "remotelock" [] resp
  return true

/-- Car.unlock (bluelink.py lines 69-80). -/
def Car.unlock (car : Car) (resp : Resp) : Except PyError Bool := do
  let _ ← car._request "remoteunlock" [] resp
  return true

/-- The action-specific headers dict Car.start builds (bluelink.py lines
106-122); seatHeaterVentInfo is the json.dumps string of the two seat-heat
levels. -/
def startHeaders (duration : Int) (temp : Json) (defrost : Bool)
    (driver_seat_heat passenger_seat_heat : Int) : List (String × Json) :=
  [("airCtrl", .str "true"),
   ("igniOnDuration", .num duration),
   ("airTempvalue", temp),
   ("defrost", .bool defrost),
   ("heating1", .str "0"),
   ("seatHeaterVentInfo",
     .str s!"\x7b\"drvSeatHeatState\": {driver_seat_heat}, \"astSeatHeatState\": {passenger_seat_heat}\x7d")]

/-- Car.start (bluelink.py lines 82-123). -/
def Car.start (car : Car) (duration : Int) (temp : Json) (defrost : Bool)
    (driver_seat_heat passenger_seat_heat : Int) (resp : Resp) : Except PyError Bool := do
  let _ ← car._request "ignitionstart"
      (startHeaders duration temp defrost driver_seat_heat passenger_seat_heat) resp
  return true

/-- Car.stop (bluelink.py lines 125-136). -/
def Car.stop (car : Car) (resp : Resp) : Except PyError Bool := do
  let _ ← car._request "ignitionstop" [] resp
  return true

/-- Car.find (bluelink.py lines 138-151): returns the (lat, lon) pair from
RESPONSE_STRING.coord of the validated response. -/
def Car.find (car : Car) (resp : Resp) : Except PyError (Json × Json) := do
  let r ← car._request "getFindMyCar" [] resp
  let rs ← r.getItem "RESPONSE_STRING"
  let coordinates ← rs.getItem "coord"
  let latitude ← coordinates.getItem "lat"
  let longitude ← coordinates.getItem "lon"
  return (latitude, longitude)

/-- Car.odometer (bluelink.py lines 153-167). -/
def Car.odometer (car : Car) (resp : Resp) : Except PyError Int := do
  let r ← car._request "getRecMaintenanceTimeline" [] resp
  let rs ← r.getItem "RESPONSE_STRING"
  let mi ← rs.getItem "MaintenanceInfo"
  let info ← mi.index0
  let cm ← info.getItem "CurrentMileage"
  pyInt cm

/-- The Account Session (class BlueLink, bluelink.py lines 225-362), after
construction: credentials are non-empty strings, the auth context starts
empty and the cars cache starts empty. -/
structure BlueLink where
  email : String
  password : String
  pin : String
  _auth : Option Auth
  _cars : List (Json × Car)

/-- The fallback "value if value else os.environ.get(NAME)" applied to each
credential (bluelink.py lines 250-252): a falsy (absent or empty) argument
falls back to the environment value. -/
def resolveCred (arg : Option String) (envVal : Option String) : Option String :=
  match arg with
  | some s => if s != "" then some s else envVal
  | none => envVal

/-- Python truthiness of an optional string (None and the empty string are
falsy). -/
def strTruthy : Option String → Bool
  | none => false
  | some s => s != ""

/-- BlueLink.__init__ (bluelink.py lines 238-261): resolves each credential
against its environment variable and raises ValueError when any resolved
credential is falsy. Construction touches the network zero times, which the
second component records. -/
def mkBlueLink (email password pin : Option String)
    (envEmail envPassword envPin : Option String) :
    Except PyError BlueLink × Nat :=
  let e := resolveCred email envEmail
  let pw := resolveCred password envPassword
  let pn := resolveCred pin envPin
  if !(strTruthy e) || !(strTruthy pw) || !(strTruthy pn) then
    (.error (.valueError "Bluelink credentials were not provided."), 0)
  else
    (.ok { email := e.getD "", password := pw.getD "", pin := pn.getD "",
           _auth := none, _cars := [] }, 0)

/-- The three responses the login handshake would receive, in order:
GET token.json, GET csrf/token.json, POST connectCar. -/
structure LoginEnv where
  tokenResp : Resp
  csrfResp : Resp
  loginResp : Resp

/-- BlueLink.login (bluelink.py lines 263-305). Returns the result, the
updated session and the number of network calls performed. A populated auth
context returns immediately; otherwise the three handshake calls run in
order, aborting (with the count of calls already made) on the first
failure. -/
def BlueLink.login (bl : BlueLink) (env : LoginEnv) :
    Except PyError Unit × BlueLink × Nat :=
  match bl._auth with
  | some _ => (.ok (), bl, 0)
  | none =>
    match env.tokenResp.jsonBody with
    | none => (.error .jsonDecodeError, bl, 1)
    | some tokenJson =>
      match tokenJson.getItem "jwt_token" with
      | .error e => (.error e, bl, 1)
      | .ok _csrf =>
        if env.csrfResp.status_code ≠ 200 then
          (.error (.requestFailed "Failed to get CSRF token."), bl, 2)
        else
          match validate env.loginResp "login" with
          | .error e => (.error e, bl, 3)
          | .ok json =>
            match json.getItem "RESPONSE_STRING" with
            | .error e => (.error e, bl, 3)
            | .ok rs =>
              match rs.getItem "jwt_id" with
              | .error e => (.error e, bl, 3)
              | .ok jwt =>
                (.ok (), { bl with _auth := some ⟨bl.email, bl.pin, jwt⟩ }, 3)

/-- One Vehicle Record built from an account-info entry (bluelink.py lines
342-352): raw payload values stored unchanged, telematics flag through
bool(), the session auth context shared with the handle. -/
def buildCar (auth : Auth) (info : Json) : Except PyError Car := do
  let nickname ← info.getItem "VehicleNickName"
  let model ← info.getItem "Name"
  let year ← info.getItem "Year"
  let vin ← info.getItem "VinNumber"
  let uid ← info.getItem "RegistrationID"
  let isBL ← info.getItem "IsBlueLinkCar"
  return { nickname := nickname, model := model, year := year, vin := vin,
           uid := uid, bluelink := isBL.truthy, _auth := some auth, _info := info }

/-- The loop of BlueLink.cars (bluelink.py lines 340-353): one Vehicle Record
per entry, keyed by its VinNumber value. -/
def buildCars (auth : Auth) : List Json → Except PyError (List (Json × Car))
  | [] => .ok []
  | info :: rest => do
    let car ← buildCar auth info
    let others ← buildCars auth rest
    return (car.vin, car) :: others

/-- The account-info fetch of BlueLink.cars (bluelink.py lines 326-353):
validate the MyAccountServlet response and build the VIN-keyed mapping from
its OwnersVehiclesInfo list. -/
def BlueLink.fetchCars (_bl : BlueLink) (auth : Auth) (resp : Resp) :
    Except PyError (List (Json × Car)) := do
  let json ← validate resp "get cars"
  let rs ← json.getItem "RESPONSE_STRING"
  let ovi ← rs.getItem "OwnersVehiclesInfo"
  match ovi with
  | .arr infos => buildCars auth infos
  | _ => .error (.typeError "OwnersVehiclesInfo is not iterable")

/-- One access of the BlueLink.cars property (bluelink.py lines 307-356):
auth precondition check, then the truthiness-based cache check, then the
single fetch. Returns the result, the updated session and the number of
network calls performed. -/
def BlueLink.carsAccess (bl : BlueLink) (resp : Resp) :
    Except PyError (List (Json × Car)) × BlueLink × Nat :=
  match bl._auth with
  | none => (.error (.requestFailed "You must login first."), bl, 0)
  | some auth =>
    if !bl._cars.isEmpty then
      (.ok bl._cars, bl, 0)
    else
      match bl.fetchCars auth resp with
      | .error e => (.error e, bl, 1)
      | .ok cars => (.ok cars, { bl with _cars := cars }, 1)

/-- n successive accesses of the cars property, threading the session state
and summing the network calls; access i receives response env i. -/
def carsAccessN : Nat → BlueLink → (Nat → Resp) → BlueLink × Nat
  | 0, bl, _ => (bl, 0)
  | n + 1, bl, env =>
    let r := bl.carsAccess (env 0)
    let rest := carsAccessN n r.2.1 (fun i => env (i + 1))
    (rest.1, r.2.2 + rest.2)

/-- Python values a CLI action can produce. -/
inductive PyVal where
  | none
  | bool (b : Bool)
  | int (n : Int)
  | pair (p : Json × Json)
  | json (j : Json)

/-- Observable outcome of the CLI helper utils.get: what it printed and
whether it returned, called exit(1), or let an exception escape. -/
inductive CliOutcome where
  | ret (printed : List String) (result : PyVal)
  | exited (printed : List String) (code : Nat)
  | uncaught (printed : List String) (e : PyError)

/-- getattr(car, func) followed by the callable check and call (utils.py lines
84-88) for a real Car. Methods dispatch to the action models; plain data
attributes are returned as values; any other name raises AttributeError. -/
def runCarFunc (car : Car) (funcName : String) (duration : Int) (temp : Json)
    (defrost : Bool) (dsh psh : Int) (resp : Resp) : Except PyError PyVal :=
  if funcName = "lock" then (car.lock resp).map .bool
  else if funcName = "unlock" then (car.unlock resp).map .bool
  else if funcName = "start" then
    (car.start duration temp defrost dsh psh resp).map .bool
  else if funcName = "stop" then (car.stop resp).map .bool
  else if funcName = "find" then (car.find resp).map .pair
  else if funcName = "odometer" then (car.odometer resp).map .int
  else if funcName = "nickname" then .ok (.json car.nickname)
  else if funcName = "model" then .ok (.json car.model)
  else if funcName = "year" then .ok (.json car.year)
  else if funcName = "vin" then .ok (.json car.vin)
  else if funcName = "uid" then .ok (.json car.uid)
  else if funcName = "bluelink" then .ok (.bool car.bluelink)
  else .error (.attributeError s!"Car object has no attribute {funcName}")

/-- Python dict lookup bluelink.cars[vin] with a string vin against the
Json-valued VinNumber keys; last binding wins as in a dict. The membership
test vin in bluelink.cars is the isSome of this. -/
def lookupCarVin (vin : String) : List (Json × Car) → Option Car
  | [] => none
  | (k, c) :: rest =>
    match lookupCarVin vin rest with
    | some r => some r
    | none => if k.pyEqStr vin then some c else none

/-- The environment a run of utils.get interacts with: the credential
environment variables and the responses of the login handshake, the vehicle
list fetch and the dispatched action. -/
structure GetEnv where
  envEmail : Option String
  envPassword : Option String
  envPin : Option String
  loginEnv : LoginEnv
  carsResp : Resp
  actionResp : Resp

/-- utils.get (utils.py lines 48-93): constructs the session (catching only
ValueError), logs in (exceptions escape), looks the VIN up in the cars
mapping printing the not-found message when absent, then runs
getattr(car, func) under a try that catches only RequestFailed (printing it
and exiting 1). When the VIN was not found, car is still None, so the
getattr runs against None and its AttributeError escapes; getattr(None, name)
is modelled as always raising since None defines none of the Car attribute
names used by the CLI. -/
def cliGet (vin funcName : String) (duration : Int) (temp : Json)
    (defrost : Bool) (dsh psh : Int) (env : GetEnv) : CliOutcome :=
  match (mkBlueLink none none none env.envEmail env.envPassword env.envPin).1 with
  | .error (.valueError _) =>
      .ret ["Credentials not found. See docs for info on how to set them."] .none
  | .error e => .uncaught [] e
  | .ok bl =>
    match bl.login env.loginEnv with
    | (.error e, _, _) => .uncaught [] e
    | (.ok _, bl1, _) =>
      match bl1.carsAccess env.carsResp with
      | (.error e, _, _) => .uncaught [] e
      | (.ok cars, _, _) =>
        match lookupCarVin vin cars with
        | some car =>
          match runCarFunc car funcName duration temp defrost dsh psh env.actionResp with
          | .ok v => .ret [] v
          | .error (.requestFailed m) => .exited [m] 1
          | .error e => .uncaught [] e
        | none =>
          .uncaught [s!"Car with VIN {vin} not found."]
            (.attributeError s!"NoneType object has no attribute {funcName}")

/-- A concrete Vehicle Handle used to exercise the theorems. -/
def carC : Car :=
  { nickname := .str "Car A", model := .str "Sonata", year := .num 2021,
    vin := .str "VINA", uid := .str "R1", bluelink := true,
    _auth := some ⟨"e@x", "1234", .str "T1"⟩, _info := .null }

/-- A concrete successful find response whose coord is (37.1, -122.1). -/
def findRespC : Resp :=
  ⟨200, "", some (.obj [("E_IFRESULT", .str "Z:Success"),
    ("RESPONSE_STRING", .obj [("coord", .obj [("lat", .num 37.1), ("lon", .num (-122.1))])])])⟩

/-- A concrete session with a populated Auth Context and an empty cache. -/
def blC : BlueLink :=
  { email := "e@x", password := "pw", pin := "1234",
    _auth := some ⟨"e@x", "1234", .str "T1"⟩, _cars := [] }

/-- A concrete freshly-constructed session (empty Auth Context). -/
def blC0 : BlueLink :=
  { email := "e@x", password := "pw", pin := "1234", _auth := none, _cars := [] }

/-- The session blC0 after a successful login that extracted token "T1". -/
def blC1 : BlueLink :=
  { blC0 with _auth := some ⟨"e@x", "1234", .str "T1"⟩ }

/-- A concrete successful login response whose envelope carries
RESPONSE_STRING.jwt_id = "T1". -/
def loginRespC : Resp :=
  ⟨200, "", some (.obj [("E_IFRESULT", .str "Z:Success"),
    ("RESPONSE_STRING", .obj [("jwt_id", .str "T1")])])⟩

/-- A concrete successful login handshake environment. -/
def loginEnvC : LoginEnv :=
  ⟨⟨200, "", some (.obj [("jwt_token", .str "C")])⟩, ⟨200, "", none⟩, loginRespC⟩

/-- A concrete successful account-info response listing zero vehicles. -/
def respEmptyCars : Resp :=
  ⟨200, "", some (.obj [("E_IFRESULT", .str "Z:Success"),
    ("RESPONSE_STRING", .obj [("OwnersVehiclesInfo", .arr [])])])⟩

/-- Constant response environment used for repeated cars accesses. -/
def constRespEmpty : Nat → Resp := fun _ => respEmptyCars

/-- A concrete account-info entry for the vehicle with VIN "VINA". -/
def infoA : Json :=
  .obj [("VehicleNickName", .str "Car A"), ("Name", .str "Sonata"),
    ("Year", .num 2021), ("VinNumber", .str "VINA"), ("RegistrationID", .str "R1"),
    ("IsBlueLinkCar", .bool true)]

/-- The Vehicle Record that building infoA under the blC auth context
produces. -/
def carA : Car :=
  { nickname := .str "Car A", model := .str "Sonata", year := .num 2021,
    vin := .str "VINA", uid := .str "R1", bluelink := true,
    _auth := some ⟨"e@x", "1234", .str "T1"⟩, _info := infoA }

/-- The session blC after its first cars access fetched the one-vehicle
mapping. -/
def blCFetched : BlueLink := { blC with _cars := [(Json.str "VINA", carA)] }

/-- A concrete successful account-info response listing exactly the vehicle
with VIN "VINA". -/
def carsRespC : Resp :=
  ⟨200, "", some (.obj [("E_IFRESULT", .str "Z:Success"),
    ("RESPONSE_STRING", .obj [("OwnersVehiclesInfo", .arr [infoA])])])⟩

/-- A concrete environment for a run of utils.get: credentials present in the
environment, successful login, one vehicle "VINA". -/
def getEnvC : GetEnv :=
  { envEmail := some "e@x", envPassword := some "pw", envPin := some "1234",
    loginEnv := loginEnvC, carsResp := carsRespC, actionResp := findRespC }

theorem toString_string (s : String) : toString s = s := rfl

theorem pyEqStr_true_iff (j : Json) (s : String) : j.pyEqStr s = true ↔ j = .str s := by
  cases j <;> simp [Json.pyEqStr]

theorem envelopeOk_eq_true_iff (kvs : List (String × Json)) :
    envelopeOk kvs = true ↔ lookupLast "E_IFRESULT" kvs = some (.str "Z:Success") := by
  unfold envelopeOk
  cases h : lookupLast "E_IFRESULT" kvs with
  | none => simp
  | some v => simp [pyEqStr_true_iff]

theorem envelopeOk_eq_false_iff (kvs : List (String × Json)) :
    envelopeOk kvs = false ↔ lookupLast "E_IFRESULT" kvs ≠ some (.str "Z:Success") := by
  rw [ne_eq, ← envelopeOk_eq_true_iff]
  cases envelopeOk kvs <;> simp

/-- C1 counterexample: with status 200 and body consisting only of a failing
E_IFRESULT (no E_IFFAILMSG field), the routine does not fail with a
remote-service RequestFailed error as the claim states; the unguarded
E_IFFAILMSG subscript raises a KeyError instead. -/
theorem validate_missing_failmsg_keyerror :
    validate ⟨200, "", some (.obj [("E_IFRESULT", .str "Z:Fail")])⟩ "remotelock"
      = .error (.keyError "E_IFFAILMSG") := rfl

/-- Complete case analysis of the validation routine, shared by the theorems
below. -/
theorem validate_case_analysis (resp : Resp) (action : String) :
    (resp.status_code ≠ 200 →
      validate resp action = .error (.requestFailed
        s!"Action {action} responded with status code {resp.status_code}.")) ∧
    (resp.status_code = 200 → resp.jsonBody = none →
      validate resp action = .error (.requestFailed
        s!"Invalid JSON response from API for {action}: {resp.text}")) ∧
    (∀ kvs, resp.status_code = 200 → resp.jsonBody = some (.obj kvs) →
      lookupLast "E_IFRESULT" kvs ≠ some (.str "Z:Success") →
      ((lookupLast "E_IFFAILMSG" kvs = none →
          validate resp action = .error (.keyError "E_IFFAILMSG")) ∧
       (lookupLast "E_IFFAILMSG" kvs = some (.str "Bad Gateway") →
          validate resp action = .error (.requestFailed pendingMsg)) ∧
       (∀ m, lookupLast "E_IFFAILMSG" kvs = some m → m ≠ .str "Bad Gateway" →
          validate resp action = .error (.requestFailed
            s!"BlueLink {action} request failed due to: {pyStr m}")))) ∧
    (∀ kvs, resp.status_code = 200 → resp.jsonBody = some (.obj kvs) →
      lookupLast "E_IFRESULT" kvs = some (.str "Z:Success") →
      validate resp action = .ok (.obj kvs)) := by
  refine ⟨?_, ?_, ?_, ?_⟩
  · intro h
    simp [validate, h]
  · intro h1 h2
    simp [validate, h1, h2]
  · intro kvs h1 h2 hne
    have hok : envelopeOk kvs = false := (envelopeOk_eq_false_iff kvs).2 hne
    refine ⟨?_, ?_, ?_⟩
    · intro hf
      simp [validate, h1, h2, hok, hf]
    · intro hf
      simp [validate, h1, h2, hok, hf, Json.pyEqStr]
    · intro m hf hne2
      have hb : m.pyEqStr "Bad Gateway" = false := by
        cases hb : m.pyEqStr "Bad Gateway"
        · rfl
        · exact absurd ((pyEqStr_true_iff m _).1 hb) hne2
      simp [validate, h1, h2, hok, hf, hb]
  · intro kvs h1 h2 heq
    have hok : envelopeOk kvs = true := (envelopeOk_eq_true_iff kvs).2 heq
    simp [validate, h1, h2, hok]

/-- C1 (amended): for every (HTTP status, response body, action label),
validation fails with the transport RequestFailed error naming the action and
status code when status is not 200; otherwise with the malformed-response
RequestFailed error carrying the raw text and action when the body does not
parse as JSON; otherwise, when E_IFRESULT is absent or not "Z:Success", it
fails with a remote-service RequestFailed error built from the E_IFFAILMSG
field when that field is present, and with a KeyError (not a RequestFailed)
when it is absent; otherwise it returns the parsed body unchanged. -/
theorem validate_branches (resp : Resp) (action : String) :
    (resp.status_code ≠ 200 →
      validate resp action = .error (.requestFailed
        s!"Action {action} responded with status code {resp.status_code}.")) ∧
    (resp.status_code = 200 → resp.jsonBody = none →
      validate resp action = .error (.requestFailed
        s!"Invalid JSON response from API for {action}: {resp.text}")) ∧
    (∀ kvs, resp.status_code = 200 → resp.jsonBody = some (.obj kvs) →
      lookupLast "E_IFRESULT" kvs ≠ some (.str "Z:Success") →
      ((lookupLast "E_IFFAILMSG" kvs = none →
          validate resp action = .error (.keyError "E_IFFAILMSG")) ∧
       (lookupLast "E_IFFAILMSG" kvs = some (.str "Bad Gateway") →
          validate resp action = .error (.requestFailed pendingMsg)) ∧
       (∀ m, lookupLast "E_IFFAILMSG" kvs = some m → m ≠ .str "Bad Gateway" →
          validate resp action = .error (.requestFailed
            s!"BlueLink {action} request failed due to: {pyStr m}")))) ∧
    (∀ kvs, resp.status_code = 200 → resp.jsonBody = some (.obj kvs) →
      lookupLast "E_IFRESULT" kvs = some (.str "Z:Success") →
      validate resp action = .ok (.obj kvs)) :=
  validate_case_analysis resp action

/-- C1 (amended) witness: the transport branch at status 500. -/
theorem validate_branches_witness :
    validate ⟨500, "oops", none⟩ "remotelock"
      = .error (.requestFailed "Action remotelock responded with status code 500.") :=
  (validate_branches ⟨500, "oops", none⟩ "remotelock").1 (by decide)

/-- C2: in the failure branch, an E_IFFAILMSG equal to "Bad Gateway" yields
the distinguished pending-retry message, and any other string failure message
appears verbatim in the raised error message. -/
theorem failmsg_mapping (action text : String) (kvs : List (String × Json)) (m : String)
    (hres : lookupLast "E_IFRESULT" kvs ≠ some (.str "Z:Success"))
    (hmsg : lookupLast "E_IFFAILMSG" kvs = some (.str m)) :
    (m = "Bad Gateway" →
      validate ⟨200, text, some (.obj kvs)⟩ action = .error (.requestFailed pendingMsg)) ∧
    (m ≠ "Bad Gateway" →
      ∃ pre post : String,
        validate ⟨200, text, some (.obj kvs)⟩ action
          = .error (.requestFailed (pre ++ m ++ post))) := by
  have hbr := validate_case_analysis ⟨200, text, some (.obj kvs)⟩ action
  constructor
  · intro hm
    subst hm
    exact (hbr.2.2.1 kvs rfl rfl hres).2.1 hmsg
  · intro hm
    refine ⟨"BlueLink " ++ action ++ " request failed due to: ", "", ?_⟩
    have hne2 : Json.str m ≠ Json.str "Bad Gateway" := by
      simp [hm]
    have := (hbr.2.2.1 kvs rfl rfl hres).2.2 (.str m) hmsg hne2
    rw [this]
    simp only [pyStr, toString_string, String.append_assoc, String.append_empty]

/-- C2 witness: the Bad Gateway case at a concrete failing envelope. -/
theorem failmsg_mapping_witness :
    validate ⟨200, "",
        some (.obj [("E_IFRESULT", .str "Z:Fail"), ("E_IFFAILMSG", .str "Bad Gateway")])⟩
        "remoteunlock"
      = .error (.requestFailed pendingMsg) :=
  (failmsg_mapping "remoteunlock" ""
      [("E_IFRESULT", .str "Z:Fail"), ("E_IFFAILMSG", .str "Bad Gateway")] "Bad Gateway"
      (by
        intro h
        have h' : Json.str "Z:Fail" = Json.str "Z:Success" := Option.some.inj h
        have h2 : "Z:Fail" = "Z:Success" := Json.str.inj h'
        exact absurd h2 (by decide))
      rfl).1 rfl

/-- C8: construction resolves each credential against its environment
variable; if any resolved credential is falsy (absent or empty) it raises the
configuration ValueError, otherwise it succeeds with an empty auth context and
an empty vehicle cache; in both cases zero network calls are performed. -/
theorem construction_credentials (email password pin envEmail envPassword envPin : Option String) :
    ((strTruthy (resolveCred email envEmail) = false ∨
      strTruthy (resolveCred password envPassword) = false ∨
      strTruthy (resolveCred pin envPin) = false) →
      mkBlueLink email password pin envEmail envPassword envPin
        = (.error (.valueError "Bluelink credentials were not provided."), 0)) ∧
    (strTruthy (resolveCred email envEmail) = true →
      strTruthy (resolveCred password envPassword) = true →
      strTruthy (resolveCred pin envPin) = true →
      ∃ bl : BlueLink,
        mkBlueLink email password pin envEmail envPassword envPin = (.ok bl, 0) ∧
          bl._auth = none ∧ bl._cars = []) := by
  constructor
  · intro h
    rcases h with h | h | h <;> simp [mkBlueLink, h]
  · intro h1 h2 h3
    simp only [mkBlueLink, h1, h2, h3, Bool.not_true, Bool.or_self, Bool.false_or,
      Bool.or_false, if_neg, Bool.false_eq_true, not_false_eq_true, ite_false]
    exact ⟨_, rfl, rfl, rfl⟩

/-- C8 witness: all three credentials missing raise the ValueError with zero
network calls. -/
theorem construction_credentials_witness :
    mkBlueLink none none none none none none
      = (.error (.valueError "Bluelink credentials were not provided."), 0) :=
  (construction_credentials none none none none none none).1 (Or.inl rfl)

/-- C9: whenever the find response validates and its envelope carries
RESPONSE_STRING.coord with lat and lon fields, Car.find returns exactly the
pair (coord.lat, coord.lon) in that order. -/
theorem find_returns_coord (car : Car) (resp : Resp) (body rs coord lat lon : Json)
    (hv : validate resp "getFindMyCar" = .ok body)
    (hrs : body.getItem "RESPONSE_STRING" = .ok rs)
    (hc : rs.getItem "coord" = .ok coord)
    (hlat : coord.getItem "lat" = .ok lat)
    (hlon : coord.getItem "lon" = .ok lon) :
    car.find resp = .ok (lat, lon) := by
  simp [Car.find, Car._request, hv, hrs, hc, hlat, hlon, Bind.bind, Except.bind, Pure.pure,
    Except.pure]

/-- C9 witness: the claim instance lat = 37.1, lon = -122.1. -/
theorem find_returns_coord_witness :
    carC.find findRespC = .ok (.num 37.1, .num (-122.1)) :=
  find_returns_coord carC findRespC
    (.obj [("E_IFRESULT", .str "Z:Success"),
      ("RESPONSE_STRING", .obj [("coord", .obj [("lat", .num 37.1), ("lon", .num (-122.1))])])])
    (.obj [("coord", .obj [("lat", .num 37.1), ("lon", .num (-122.1))])])
    (.obj [("lat", .num 37.1), ("lon", .num (-122.1))])
    (.num 37.1) (.num (-122.1)) rfl rfl rfl rfl rfl

theorem bind_const_true (f : Except PyError Json) :
    (f >>= fun _ => (pure true : Except PyError Bool)) = .ok true ∨
      ∃ e, (f >>= fun _ => (pure true : Except PyError Bool)) = .error e := by
  cases f with
  | ok v => exact Or.inl rfl
  | error e => exact Or.inr ⟨e, rfl⟩

/-- C10: whenever lock, unlock, start or stop returns normally, the returned
boolean is the constant true; otherwise the call raised, so failure is never
reported through the boolean. -/
theorem actions_return_true (car : Car) (resp : Resp) (duration : Int) (temp : Json)
    (defrost : Bool) (dsh psh : Int) :
    (car.lock resp = .ok true ∨ ∃ e, car.lock resp = .error e) ∧
    (car.unlock resp = .ok true ∨ ∃ e, car.unlock resp = .error e) ∧
    (car.start duration temp defrost dsh psh resp = .ok true ∨
      ∃ e, car.start duration temp defrost dsh psh resp = .error e) ∧
    (car.stop resp = .ok true ∨ ∃ e, car.stop resp = .error e) :=
  ⟨bind_const_true (validate resp "remotelock"),
   bind_const_true (validate resp "remoteunlock"),
   bind_const_true (validate resp "ignitionstart"),
   bind_const_true (validate resp "ignitionstop")⟩

theorem login_populated_noop (bl : BlueLink) (a : Auth) (env : LoginEnv)
    (hA : bl._auth = some a) : bl.login env = (.ok (), bl, 0) := by
  unfold BlueLink.login
  rw [hA]

theorem login_none_ok_inv (bl : BlueLink) (env : LoginEnv) (bl1 : BlueLink) (n : Nat)
    (hA : bl._auth = none)
    (h : bl.login env = (.ok (), bl1, n)) :
    ∃ json rs jwt,
      validate env.loginResp "login" = .ok json ∧
      json.getItem "RESPONSE_STRING" = .ok rs ∧
      rs.getItem "jwt_id" = .ok jwt ∧
      bl1 = { bl with _auth := some ⟨bl.email, bl.pin, jwt⟩ } ∧ n = 3 := by
  unfold BlueLink.login at h
  rw [hA] at h
  split at h
  · rename_i val heq
    exact Option.noConfusion heq
  · split at h
    · simp at h
    · split at h
      · simp at h
      · split at h
        · simp at h
        · split at h
          · simp at h
          · rename_i json hval
            split at h
            · simp at h
            · rename_i rs hrs
              split at h
              · simp at h
              · rename_i jwt hjwt
                have h2 : ({ bl with _auth := some ⟨bl.email, bl.pin, jwt⟩ } : BlueLink) = bl1 :=
                  congrArg (fun t => t.2.1) h
                have h3 : (3 : Nat) = n := congrArg (fun t => t.2.2) h
                exact ⟨json, rs, jwt, hval, hrs, hjwt, h2.symm, h3.symm⟩

theorem login_ok_auth (bl : BlueLink) (env : LoginEnv) (bl1 : BlueLink) (n : Nat)
    (h : bl.login env = (.ok (), bl1, n)) : ∃ a, bl1._auth = some a := by
  cases hA : bl._auth with
  | some a =>
    rw [login_populated_noop bl a env hA] at h
    have h2 : bl = bl1 := congrArg (fun t => t.2.1) h
    exact ⟨a, h2 ▸ hA⟩
  | none =>
    obtain ⟨json, rs, jwt, -, -, -, hbl1, -⟩ := login_none_ok_inv bl env bl1 n hA h
    exact ⟨⟨bl.email, bl.pin, jwt⟩, by rw [hbl1]⟩

/-- C5: login is idempotent. With an already-populated Auth Context a further
login returns immediately, performs none of the three handshake network
calls and leaves the session unchanged; hence after any successful login a
second login is a no-op, so logging in twice performs the handshake once. -/
theorem login_idempotent :
    (∀ (bl : BlueLink) (a : Auth) (env : LoginEnv),
        bl._auth = some a → bl.login env = (.ok (), bl, 0)) ∧
    (∀ (bl : BlueLink) (env1 : LoginEnv) (bl1 : BlueLink) (n1 : Nat) (env2 : LoginEnv),
        bl.login env1 = (.ok (), bl1, n1) → bl1.login env2 = (.ok (), bl1, 0)) := by
  refine ⟨fun bl a env hA => login_populated_noop bl a env hA, ?_⟩
  intro bl env1 bl1 n1 env2 h
  obtain ⟨a, hA⟩ := login_ok_auth bl env1 bl1 n1 h
  exact login_populated_noop bl1 a env2 hA

/-- C5 witness: a logged-in session ignores a further login. -/
theorem login_idempotent_witness :
    blC.login loginEnvC = (.ok (), blC, 0) :=
  login_idempotent.1 blC ⟨"e@x", "1234", .str "T1"⟩ loginEnvC rfl

theorem validate_ok_body (resp : Resp) (action : String) (j : Json)
    (h : validate resp action = .ok j) : resp.jsonBody = some j := by
  unfold validate at h
  repeat' split at h
  all_goals by_cases h200 : resp.status_code = 200 <;> simp_all

theorem lookupLast_append_none (k : String) (l1 l2 : List (String × Json))
    (h2 : lookupLast k l2 = none) :
    lookupLast k (l1 ++ l2) = lookupLast k l1 := by
  induction l1 with
  | nil => simpa [lookupLast] using h2
  | cons p rest ih =>
    obtain ⟨k', v⟩ := p
    simp only [List.cons_append, lookupLast, List.append_eq, ih]

theorem requestData_token (car : Car) (a : Auth) (action : String)
    (headers : List (String × Json)) (hA : car._auth = some a)
    (hH : lookupLast "token" headers = none) :
    lookupLast "token" (car.requestData action headers) = some a.token := by
  unfold Car.requestData
  rw [hA]
  rw [lookupLast_append_none "token" _ headers hH]
  have hF : lookupLast "token"
      [("vin", car.vin), ("url", .str HOME), ("gen", .num 2),
       ("regId", car.uid), ("service", .str action)] = none := by
    simp [lookupLast]
  rw [lookupLast_append_none "token" _ _ hF]
  simp [authEntries, lookupLast]

/-- C6: a successful login from an empty Auth Context whose final response
envelope carries RESPONSE_STRING.jwt_id = "T1" stores the Auth Context
{account email, PIN, token "T1"}, and the POST body of every vehicle-action
request built under that context (whose action headers do not rebind "token")
contains the token "T1" unchanged. -/
theorem login_token_flows (bl : BlueLink) (env : LoginEnv) (bl1 : BlueLink) (n : Nat)
    (json rs : Json)
    (hA : bl._auth = none)
    (h : bl.login env = (.ok (), bl1, n))
    (hbody : env.loginResp.jsonBody = some json)
    (hrs : json.getItem "RESPONSE_STRING" = .ok rs)
    (hjwt : rs.getItem "jwt_id" = .ok (.str "T1")) :
    bl1._auth = some ⟨bl.email, bl.pin, .str "T1"⟩ ∧
    (∀ (car : Car) (action : String) (headers : List (String × Json)),
      car._auth = bl1._auth → lookupLast "token" headers = none →
      lookupLast "token" (car.requestData action headers) = some (.str "T1")) := by
  obtain ⟨json', rs', jwt, hval, hrs', hjwt', hbl1, -⟩ := login_none_ok_inv bl env bl1 n hA h
  have hb' : env.loginResp.jsonBody = some json' := validate_ok_body _ _ _ hval
  rw [hbody] at hb'
  obtain rfl : json = json' := Option.some.inj hb'
  rw [hrs] at hrs'
  obtain rfl : rs = rs' := Except.ok.inj hrs'
  rw [hjwt] at hjwt'
  obtain rfl : Json.str "T1" = jwt := Except.ok.inj hjwt'
  have hauth : bl1._auth = some ⟨bl.email, bl.pin, .str "T1"⟩ := by rw [hbl1]
  refine ⟨hauth, fun car action headers hcA hH => ?_⟩
  rw [hauth] at hcA
  exact requestData_token car ⟨bl.email, bl.pin, .str "T1"⟩ action headers hcA hH

/-- C6 witness: the concrete login with jwt_id "T1" and the remotelock request
body carrying the token. -/
theorem login_token_flows_witness :
    blC1._auth = some ⟨"e@x", "1234", .str "T1"⟩ ∧
    lookupLast "token" (carC.requestData "remotelock" []) = some (.str "T1") :=
  have h := login_token_flows blC0 loginEnvC blC1 3
    (.obj [("E_IFRESULT", .str "Z:Success"),
      ("RESPONSE_STRING", .obj [("jwt_id", .str "T1")])])
    (.obj [("jwt_id", .str "T1")]) rfl rfl rfl rfl rfl
  ⟨h.1, h.2 carC "remotelock" [] rfl rfl⟩

theorem carsAccess_no_auth (bl : BlueLink) (r : Resp) (hA : bl._auth = none) :
    bl.carsAccess r = (.error (.requestFailed "You must login first."), bl, 0) := by
  unfold BlueLink.carsAccess
  rw [hA]

theorem carsAccess_cached (bl : BlueLink) (a : Auth) (r : Resp)
    (hA : bl._auth = some a) (hc : bl._cars ≠ []) :
    bl.carsAccess r = (.ok bl._cars, bl, 0) := by
  unfold BlueLink.carsAccess
  rw [hA]
  have hE : bl._cars.isEmpty = false := by
    cases hcs : bl._cars with
    | nil => exact absurd hcs hc
    | cons p rest => rfl
  simp [hE]

theorem carsAccess_fetch_ok_inv (bl : BlueLink) (a : Auth) (r : Resp)
    (m : List (Json × Car)) (bl1 : BlueLink) (k : Nat)
    (hA : bl._auth = some a) (hc : bl._cars = [])
    (h : bl.carsAccess r = (.ok m, bl1, k)) :
    bl.fetchCars a r = .ok m ∧ bl1 = { bl with _cars := m } ∧ k = 1 := by
  unfold BlueLink.carsAccess at h
  rw [hA, hc] at h
  simp only [List.isEmpty_nil, Bool.not_true, Bool.false_eq_true, if_false] at h
  split at h
  · simp at h
  · rename_i cars hf
    have h1 : Except.ok cars = Except.ok m := congrArg (fun t => t.1) h
    have hcm : cars = m := Except.ok.inj h1
    rw [hcm] at hf
    have h2 : ({ bl with _auth := some a, _cars := cars } : BlueLink) = bl1 :=
      congrArg (fun t => t.2.1) h
    rw [hcm, ← hA] at h2
    have h3 : (1 : Nat) = k := congrArg (fun t => t.2.2) h
    exact ⟨hf, h2.symm, h3.symm⟩

theorem carsAccessN_cached (n : Nat) (bl : BlueLink) (env : Nat → Resp) (a : Auth)
    (hA : bl._auth = some a) (hc : bl._cars ≠ []) :
    carsAccessN n bl env = (bl, 0) := by
  induction n generalizing env with
  | zero => rfl
  | succ k ih =>
    unfold carsAccessN
    rw [carsAccess_cached bl a (env 0) hA hc]
    simp [ih]

/-- C3 (amended): when the first access from an empty cache succeeds AND the
fetched vehicle mapping is non-empty, every later access returns the cached
mapping with no network call, so n + 1 accesses perform exactly one fetch.
(With an empty mapping the falsy cache never short-circuits; see the
counterexample.) -/
theorem cars_single_fetch_of_nonempty (bl : BlueLink) (a : Auth) (env : Nat → Resp)
    (m : List (Json × Car)) (bl1 : BlueLink) (k n : Nat)
    (hA : bl._auth = some a) (hc : bl._cars = [])
    (h : bl.carsAccess (env 0) = (.ok m, bl1, k)) (hm : m ≠ []) :
    (carsAccessN (n + 1) bl env).2 = 1 ∧
      ∀ r, bl1.carsAccess r = (.ok m, bl1, 0) := by
  obtain ⟨hf, hbl1, hk⟩ := carsAccess_fetch_ok_inv bl a (env 0) m bl1 k hA hc h
  have hA1 : bl1._auth = some a := by rw [hbl1]; exact hA
  have hc1 : bl1._cars ≠ [] := by rw [hbl1]; exact hm
  have hcached : ∀ r, bl1.carsAccess r = (.ok m, bl1, 0) := by
    intro r
    have := carsAccess_cached bl1 a r hA1 hc1
    rw [show bl1._cars = m by rw [hbl1]] at this
    exact this
  refine ⟨?_, hcached⟩
  have hN : (carsAccessN (n + 1) bl env).2
      = k + (carsAccessN n bl1 (fun i => env (i + 1))).2 := by
    simp only [carsAccessN]
    rw [h]
  rw [hN, carsAccessN_cached n bl1 (fun i => env (i + 1)) a hA1 hc1]
  simp [hk]

/-- C3 (amended) witness: with auth populated, empty cache and a one-vehicle
fetch, three accesses perform exactly one network call. -/
theorem cars_single_fetch_of_nonempty_witness :
    (carsAccessN 3 blC (fun _ => carsRespC)).2 = 1 :=
  (cars_single_fetch_of_nonempty blC ⟨"e@x", "1234", .str "T1"⟩ (fun _ => carsRespC)
    [(Json.str "VINA", carA)] blCFetched 1 2 rfl rfl rfl
    (List.cons_ne_nil _ _)).1

/-- C3 counterexample: an account with zero vehicles. The first access
succeeds (returning the empty mapping) yet two accesses of the cars property
issue two account-info fetches, not the exactly-one the claim states: the
empty cached dict is falsy, so the cache never takes effect. -/
theorem cars_empty_account_refetches :
    (blC.carsAccess respEmptyCars).1 = .ok [] ∧
    (carsAccessN 2 blC constRespEmpty).2 = 2 := ⟨rfl, rfl⟩

theorem buildCar_auth (a : Auth) (info : Json) (car : Car)
    (h : buildCar a info = .ok car) : car._auth = some a := by
  simp only [buildCar, Bind.bind, Except.bind] at h
  repeat' split at h
  all_goals simp_all [Pure.pure, Except.pure]
  rw [← h]

theorem buildCars_auth (a : Auth) (infos : List Json) (cars : List (Json × Car))
    (h : buildCars a infos = .ok cars) : ∀ p ∈ cars, p.2._auth = some a := by
  induction infos generalizing cars with
  | nil =>
    obtain rfl : [] = cars := Except.ok.inj h
    intro p hp
    cases hp
  | cons info rest ih =>
    simp only [buildCars, Bind.bind, Except.bind] at h
    split at h
    · simp at h
    · rename_i car hcar
      split at h
      · simp at h
      · rename_i others hothers
        obtain rfl : (car.vin, car) :: others = cars := Except.ok.inj h
        intro p hp
        rcases List.mem_cons.1 hp with hp | hp
        · rw [hp]
          exact buildCar_auth a info car hcar
        · exact ih others hothers p hp

theorem fetchCars_ok_inv (bl : BlueLink) (a : Auth) (r : Resp) (m : List (Json × Car))
    (h : bl.fetchCars a r = .ok m) : ∃ infos, buildCars a infos = .ok m := by
  simp only [BlueLink.fetchCars, Bind.bind, Except.bind] at h
  repeat' split at h
  all_goals first
    | simp at h
    | exact ⟨_, h⟩

/-- C4: a session with an empty Auth Context fails the explicit precondition
check of the vehicle-list accessor — the only source of Vehicle Handles —
with the authentication-required error and zero network calls; any successful
access implies a populated Auth Context, and every handle built by the first
fetch carries that populated context, so no Vehicle Handle action can run
before login. -/
theorem no_action_before_login :
    (∀ (bl : BlueLink) (r : Resp), bl._auth = none →
      bl.carsAccess r = (.error (.requestFailed "You must login first."), bl, 0)) ∧
    (∀ (bl : BlueLink) (r : Resp) (m : List (Json × Car)) (bl1 : BlueLink) (k : Nat),
      bl.carsAccess r = (.ok m, bl1, k) → ∃ a, bl._auth = some a) ∧
    (∀ (bl : BlueLink) (a : Auth) (r : Resp) (m : List (Json × Car)) (bl1 : BlueLink) (k : Nat),
      bl._auth = some a → bl._cars = [] → bl.carsAccess r = (.ok m, bl1, k) →
      ∀ p ∈ m, p.2._auth = some a) := by
  refine ⟨fun bl r hA => carsAccess_no_auth bl r hA, ?_, ?_⟩
  · intro bl r m bl1 k h
    cases hA : bl._auth with
    | none =>
      rw [carsAccess_no_auth bl r hA] at h
      have := congrArg (fun t => t.1) h
      simp at this
    | some a => exact ⟨a, rfl⟩
  · intro bl a r m bl1 k hA hc h
    obtain ⟨hf, -, -⟩ := carsAccess_fetch_ok_inv bl a r m bl1 k hA hc h
    obtain ⟨infos, hb⟩ := fetchCars_ok_inv bl a r m hf
    exact buildCars_auth a infos m hb

/-- C4 witness: a freshly-constructed (never logged in) session raises the
authentication-required error from the cars accessor with zero network
calls. -/
theorem no_action_before_login_witness :
    blC0.carsAccess respEmptyCars
      = (.error (.requestFailed "You must login first."), blC0, 0) :=
  no_action_before_login.1 blC0 respEmptyCars rfl

/-- C7 evaluation: at a session whose vehicle mapping contains only VIN
"VINA", utils.get called with the unknown VIN "VINB" prints the not-found
message but then lets an AttributeError escape — getattr(None, "lock") runs
because car is still None and only RequestFailed is caught — contradicting
the claim that no exception escapes to the caller. -/
theorem cliGet_unknown_vin_escapes :
    cliGet "VINB" "lock" 10 (.str "LO") false 4 4 getEnvC
      = .uncaught ["Car with VIN VINB not found."]
          (.attributeError "NoneType object has no attribute lock") := rfl

end BlueLinkModel
